import Mathlib

/-!
Verification of the verdict classifier and the country-flag helper of the
Should-i-touch-grass application.

The data model mirrors the Zod schemas of the source: a weather record with a
list of condition entries, a temperature, a place name and a country code, and
an air-quality record with a list of AQI entries.  JavaScript numbers are
modelled as rationals; JavaScript strings as Lean strings (lists of Unicode
scalar values, which agrees with UTF-16 length on the basic multilingual plane,
the only range the theorems below quantify over).
-/

namespace TouchGrass

structure WeatherEntry where
  main : String

structure Coord where
  lon : Rat
  lat : Rat

structure MainInfo where
  temp : Rat

structure SysInfo where
  country : String

structure WeatherData where
  coord : Coord
  weather : List WeatherEntry
  main : MainInfo
  name : String
  sys : SysInfo

structure AqiMain where
  aqi : Rat

structure AqiListEntry where
  main : AqiMain

structure AqiData where
  list : List AqiListEntry

structure VerdictResponse where
  verdict : String
  message : String
  city : String
  country : String
  countryFlag : String
  weather : String
  aqi : String
  temp : String

/-- Embedding of the source helper getAqiString: maps the AQI index to a
readable string via a switch on the values 1..5, defaulting to "Unknown". -/
def getAqiString (aqi : Rat) : String :=
  if aqi = 1 then "Good"
  else if aqi = 2 then "Fair"
  else if aqi = 3 then "Moderate"
  else if aqi = 4 then "Poor"
  else if aqi = 5 then "Very Poor"
  else "Unknown"

/-- Unicode offset for regional indicator symbols, as in the source. -/
def regionalIndicatorOffset : Nat := 127397

/-- Model of the JavaScript String.prototype.toUpperCase applied to a single
character (the Unicode default case conversion, which may expand one character
to several).  It is exact on all ASCII characters (codes 65..90 and 97..122 map
as usual, the rest are fixed) and on the three non-ASCII Latin characters with
an uppercase mapping into ASCII: U+017F LATIN SMALL LETTER LONG S maps to S,
U+0131 LATIN SMALL LETTER DOTLESS I maps to I, and U+00DF SHARP S maps to SS.
Other non-ASCII characters are left unchanged, which is inexact in general, so
the universally quantified theorems below restrict their quantifiers to ASCII
strings; concrete evaluations use only the exact cases. -/
def jsToUpperChar (c : Char) : List Char :=
  if 97 ≤ c.toNat ∧ c.toNat ≤ 122 then [Char.ofNat (c.toNat - 32)]
  else if c.toNat = 383 then ['S']
  else if c.toNat = 305 then ['I']
  else if c.toNat = 223 then ['S', 'S']
  else [c]

/-- JavaScript toUpperCase on a whole string. -/
def jsToUpper (s : List Char) : List Char := s.flatMap jsToUpperChar

/-- One character of the class [A-Z] of the source regex. -/
def isAsciiUpper (c : Char) : Bool := 65 ≤ c.toNat && c.toNat ≤ 90

/-- Embedding of the source helper getCountryFlag: reject strings whose length
is not 2, uppercase, test against the regex for exactly two ASCII capitals,
and on success add the regional-indicator offset to each character code. -/
def getCountryFlag (countryCode : String) : String :=
  if countryCode.length ≠ 2 then "🏳️"
  else
    let upperCaseCode := jsToUpper countryCode.toList
    if upperCaseCode.length = 2 ∧ upperCaseCode.all isAsciiUpper then
      String.mk (upperCaseCode.map (fun c => Char.ofNat (c.toNat + regionalIndicatorOffset)))
    else "🏳️"

/-- The adverse weather conditions of the source, in source order. -/
def badWeatherConditions : List String :=
  ["Rain", "Snow", "Thunderstorm", "Drizzle", "Mist", "Smoke", "Haze", "Fog"]

def defaultMessage : String := "The conditions are great. Go enjoy the outdoors!"

def freezingMessage : String := "It's freezing outside! Better to stay warm."

def tooHotMessage : String := "It's too hot outside right now. Stay cool indoors!"

/-- The weather-rule message template of the source (a template literal over
the lowercased condition). -/
def badWeatherMessage (weatherCondition : String) : String :=
  "It's currently " ++ weatherCondition.toLower ++ ", not ideal for going out."

/-- The air-quality-rule message template of the source. -/
def badAirMessage (aqiString : String) : String :=
  "The air quality is " ++ aqiString.toLower ++ ", best to stay inside."

/-- The condition label: the main field of the first weather entry, or
"Unknown" when the array is empty (the optional-chaining plus nullish
coalescing of the source). -/
def conditionOf (weatherData : WeatherData) : String :=
  ((weatherData.weather.head?).map WeatherEntry.main).getD "Unknown"

/-- The AQI index: the aqi field of the first list entry when present. -/
def aqiIndexOf (aqiData : AqiData) : Option Rat :=
  (aqiData.list.head?).map (fun e => e.main.aqi)

/-- The aqiString of the source: getAqiString when aqiIndex is truthy
(defined and nonzero), otherwise "Unknown". -/
def aqiStringOf (aqiIndex : Option Rat) : String :=
  match aqiIndex with
  | some v => if v = 0 then "Unknown" else getAqiString v
  | none => "Unknown"

/-- The guard of the air-quality rule: aqiIndex is truthy and greater than 2. -/
def aqiRuleFires (aqiIndex : Option Rat) : Bool :=
  match aqiIndex with
  | some v => decide (¬ v = 0) && decide (2 < v)
  | none => false

/-- JavaScript Math.round: round half toward positive infinity. -/
def jsRound (x : Rat) : Int := ⌊x + (1 : Rat) / 2⌋

/-- Embedding of determineVerdict.  The mutable variables shouldTouchGrass and
message of the source become explicit state passing: state1 after the
weather-condition rule, state2 after the air-quality rule, state3 after the
temperature rules, evaluated in source order so that later rules overwrite
earlier messages. -/
def determineVerdict (weatherData : WeatherData) (aqiData : AqiData) : VerdictResponse :=
  let weatherCondition := conditionOf weatherData
  let temperature := weatherData.main.temp
  let aqiIndex := aqiIndexOf aqiData
  let aqiString := aqiStringOf aqiIndex
  let countryCode := weatherData.sys.country
  let countryFlag := getCountryFlag countryCode
  let state1 : Bool × String :=
    if badWeatherConditions.contains weatherCondition then
      (false, badWeatherMessage weatherCondition)
    else (true, defaultMessage)
  let state2 : Bool × String :=
    if aqiRuleFires aqiIndex then (false, badAirMessage aqiString) else state1
  let state3 : Bool × String :=
    if temperature < 0 then (false, freezingMessage)
    else if temperature > 35 then (false, tooHotMessage)
    else state2
  { verdict := if state3.1 then "Yes" else "No"
    message := state3.2
    city := weatherData.name
    country := countryCode
    countryFlag := countryFlag
    weather := weatherCondition
    aqi := aqiString
    temp := toString (jsRound temperature) ++ "°C" }

/-- Written from the spec (section 4.1), for comparison with the code: the
message of the last rule whose condition holds, in the precedence order
freezing, too hot, air quality, adverse weather, or the default message when
no rule fires. -/
def specLastRuleMessage (weatherCondition : String) (temperature : Rat)
    (aqiIndex : Option Rat) : String :=
  if temperature < 0 then freezingMessage
  else if temperature > 35 then tooHotMessage
  else if aqiRuleFires aqiIndex then badAirMessage (aqiStringOf aqiIndex)
  else if badWeatherConditions.contains weatherCondition then
    badWeatherMessage weatherCondition
  else defaultMessage

/-- A weather record with the given condition label and temperature; the other
fields are arbitrary concrete values used by witnesses. -/
def mkWeather (cond : String) (t : Rat) : WeatherData :=
  { coord := { lon := 0, lat := 0 }
    weather := [{ main := cond }]
    main := { temp := t }
    name := "Testville"
    sys := { country := "US" } }

/-- An air-quality record whose single entry carries the given index. -/
def mkAqi (a : Rat) : AqiData := { list := [{ main := { aqi := a } }] }

lemma contains_iff_mem (c : String) (l : List String) : l.contains c = true ↔ c ∈ l := by
  simp [List.contains, List.elem_iff]

lemma determineVerdict_aqi_field (wd : WeatherData) (ad : AqiData) :
    (determineVerdict wd ad).aqi = aqiStringOf (aqiIndexOf ad) := rfl

/-- Evaluation lemma: the verdict of determineVerdict is "No" exactly when one
of the four rule guards holds, and the message is the one of the last rule in
source order whose guard holds. -/
lemma determineVerdict_eval (wd : WeatherData) (ad : AqiData) :
    (determineVerdict wd ad).verdict =
      (if conditionOf wd ∈ badWeatherConditions
          ∨ aqiRuleFires (aqiIndexOf ad) = true
          ∨ wd.main.temp < 0 ∨ wd.main.temp > 35 then "No" else "Yes")
    ∧ (determineVerdict wd ad).message =
        specLastRuleMessage (conditionOf wd) wd.main.temp (aqiIndexOf ad) := by
  unfold determineVerdict specLastRuleMessage
  by_cases h1 : conditionOf wd ∈ badWeatherConditions <;>
  by_cases h2 : aqiRuleFires (aqiIndexOf ad) = true <;>
  by_cases h3 : wd.main.temp < 0 <;>
  by_cases h4 : wd.main.temp > 35 <;>
  simp [h1, h2, h3, h4]

lemma aqiStringOf_mem (x : Option Rat) :
    aqiStringOf x ∈ ["Good", "Fair", "Moderate", "Poor", "Very Poor", "Unknown"] := by
  unfold aqiStringOf getAqiString
  rcases x with _ | v
  · simp
  · dsimp only
    split_ifs <;> simp

lemma badAirMessage_ne_default (x : Option Rat) :
    badAirMessage (aqiStringOf x) ≠ defaultMessage := by
  have h := aqiStringOf_mem x
  simp only [List.mem_cons, List.not_mem_nil, or_false] at h
  rcases h with h | h | h | h | h | h <;> rw [h] <;> decide

lemma badWeatherMessage_ne_default (c : String) (hc : c ∈ badWeatherConditions) :
    badWeatherMessage c ≠ defaultMessage := by
  simp only [badWeatherConditions, List.mem_cons, List.not_mem_nil, or_false] at hc
  rcases hc with h | h | h | h | h | h | h | h <;> rw [h] <;> decide

lemma aqiRuleFires_of_le (a : Rat) (ha : a ≤ 2) : aqiRuleFires (some a) = false := by
  have h : decide (2 < a) = false := by simp [not_lt.mpr ha]
  simp [aqiRuleFires, h]

/-- When none of the rule guards holds, the verdict is "Yes" with the default
message. -/
lemma verdict_yes_general (wd : WeatherData) (ad : AqiData)
    (hc : conditionOf wd ∉ badWeatherConditions)
    (hf : aqiRuleFires (aqiIndexOf ad) = false)
    (ht0 : ¬ wd.main.temp < 0) (ht35 : ¬ wd.main.temp > 35) :
    (determineVerdict wd ad).verdict = "Yes" ∧
    (determineVerdict wd ad).message = defaultMessage := by
  obtain ⟨hv, hm⟩ := determineVerdict_eval wd ad
  constructor
  · rw [hv, if_neg]
    rintro (h | h | h | h)
    · exact hc h
    · rw [hf] at h; exact absurd h (by decide)
    · exact ht0 h
    · exact ht35 h
  · rw [hm]
    unfold specLastRuleMessage
    rw [if_neg ht0, if_neg ht35, if_neg (by simp [hf]),
        if_neg (fun h => hc ((contains_iff_mem _ _).mp h))]

/-- C1: for every weather condition label, every temperature and every AQI
index between 1 and 5, determineVerdict answers "No" exactly when some rule
guard holds (adverse condition, AQI above 2, temperature below 0 or above 35)
and "Yes" otherwise; the characterising disjunction is symmetric in the rules,
so the boolean outcome does not depend on the evaluation order. -/
theorem verdict_no_iff_rule_fires (wd : WeatherData) (ad : AqiData) (a : Rat)
    (ha : aqiIndexOf ad = some a) (h1 : 1 ≤ a) (_h5 : a ≤ 5) :
    ((determineVerdict wd ad).verdict = "No" ↔
      (conditionOf wd ∈ badWeatherConditions ∨ 2 < a ∨
        wd.main.temp < 0 ∨ wd.main.temp > 35))
    ∧ ((determineVerdict wd ad).verdict = "Yes" ↔
      ¬(conditionOf wd ∈ badWeatherConditions ∨ 2 < a ∨
        wd.main.temp < 0 ∨ wd.main.temp > 35)) := by
  obtain ⟨hv, -⟩ := determineVerdict_eval wd ad
  have hfire : aqiRuleFires (aqiIndexOf ad) = true ↔ 2 < a := by
    rw [ha]
    simp only [aqiRuleFires, Bool.and_eq_true, decide_eq_true_eq]
    constructor
    · exact fun h => h.2
    · exact fun h => ⟨ne_of_gt (lt_of_lt_of_le zero_lt_one h1), h⟩
  have hcond : (conditionOf wd ∈ badWeatherConditions ∨
      aqiRuleFires (aqiIndexOf ad) = true ∨
      wd.main.temp < 0 ∨ wd.main.temp > 35) ↔
      (conditionOf wd ∈ badWeatherConditions ∨ 2 < a ∨
      wd.main.temp < 0 ∨ wd.main.temp > 35) := by
    rw [hfire]
  rw [hv]
  by_cases hP : conditionOf wd ∈ badWeatherConditions ∨ 2 < a ∨
      wd.main.temp < 0 ∨ wd.main.temp > 35
  · rw [if_pos (hcond.mpr hP)]
    exact ⟨iff_of_true rfl hP, iff_of_false (by decide) (not_not_intro hP)⟩
  · rw [if_neg (fun h => hP (hcond.mp h))]
    exact ⟨iff_of_false (by decide) hP, iff_of_true rfl hP⟩

/-- C1 witness: at condition Clear, temperature 20, AQI 1 no guard holds and
the verdict is "Yes". -/
theorem verdict_no_iff_rule_fires_witness :
    ((determineVerdict (mkWeather "Clear" 20) (mkAqi 1)).verdict = "Yes" ↔
      ¬(conditionOf (mkWeather "Clear" 20) ∈ badWeatherConditions ∨ (2 : Rat) < 1 ∨
        (mkWeather "Clear" 20).main.temp < 0 ∨ (mkWeather "Clear" 20).main.temp > 35)) :=
  (verdict_no_iff_rule_fires (mkWeather "Clear" 20) (mkAqi 1) 1 rfl
    (le_refl 1) (by norm_num)).2

/-- C2: a temperature below 0 forces verdict "No" with the freezing message and
a temperature above 35 forces verdict "No" with the heat message, for every
weather record and air-quality record, because the temperature rules are
evaluated last and overwrite any earlier message. -/
theorem temp_extremes_override (wd : WeatherData) (ad : AqiData) :
    (wd.main.temp < 0 →
      (determineVerdict wd ad).verdict = "No" ∧
      (determineVerdict wd ad).message = freezingMessage)
    ∧ (wd.main.temp > 35 →
      (determineVerdict wd ad).verdict = "No" ∧
      (determineVerdict wd ad).message = tooHotMessage) := by
  obtain ⟨hv, hm⟩ := determineVerdict_eval wd ad
  rw [hv, hm]
  unfold specLastRuleMessage
  constructor
  · intro h
    rw [if_pos (Or.inr (Or.inr (Or.inl h))), if_pos h]
    exact ⟨rfl, rfl⟩
  · intro h
    have h0 : ¬ wd.main.temp < 0 := by linarith
    rw [if_pos (Or.inr (Or.inr (Or.inr h))), if_neg h0, if_pos h]
    exact ⟨rfl, rfl⟩

/-- C2 witness: the combined case of the spec, condition Rain, AQI 4 and
temperature minus 5, yields "No" with the freezing message, not the rain or
air-quality message. -/
theorem temp_extremes_override_witness :
    (determineVerdict (mkWeather "Rain" (-5)) (mkAqi 4)).verdict = "No" ∧
    (determineVerdict (mkWeather "Rain" (-5)) (mkAqi 4)).message = freezingMessage :=
  (temp_extremes_override (mkWeather "Rain" (-5)) (mkAqi 4)).1 (by norm_num [mkWeather])

/-- C3: the message of determineVerdict always equals the message of the last
rule in source order whose guard holds (default message when none does), and
the verdict is "Yes" exactly when the message is the default message. -/
theorem message_matches_last_rule (wd : WeatherData) (ad : AqiData) :
    (determineVerdict wd ad).message =
      specLastRuleMessage (conditionOf wd) wd.main.temp (aqiIndexOf ad)
    ∧ ((determineVerdict wd ad).verdict = "Yes" ↔
      (determineVerdict wd ad).message = defaultMessage) := by
  obtain ⟨hv, hm⟩ := determineVerdict_eval wd ad
  refine ⟨hm, ?_⟩
  rw [hv, hm]
  unfold specLastRuleMessage
  by_cases h3 : wd.main.temp < 0
  · rw [if_pos (Or.inr (Or.inr (Or.inl h3))), if_pos h3]
    exact iff_of_false (by decide) (by decide)
  · by_cases h4 : wd.main.temp > 35
    · rw [if_pos (Or.inr (Or.inr (Or.inr h4))), if_neg h3, if_pos h4]
      exact iff_of_false (by decide) (by decide)
    · by_cases h2 : aqiRuleFires (aqiIndexOf ad) = true
      · rw [if_pos (Or.inr (Or.inl h2)), if_neg h3, if_neg h4, if_pos h2]
        exact iff_of_false (by decide) (badAirMessage_ne_default _)
      · by_cases h1 : conditionOf wd ∈ badWeatherConditions
        · rw [if_pos (Or.inl h1), if_neg h3, if_neg h4, if_neg h2,
              if_pos ((contains_iff_mem _ _).mpr h1)]
          exact iff_of_false (by decide) (badWeatherMessage_ne_default _ h1)
        · rw [if_neg (by tauto), if_neg h3, if_neg h4, if_neg h2,
              if_neg (fun h => h1 ((contains_iff_mem _ _).mp h))]
          exact iff_of_true rfl rfl

/-- C4: the temperature thresholds are strict: at exactly 0 and exactly 35
degrees the temperature rule does not fire, so with a neutral condition and an
AQI index at most 2 the verdict is "Yes". -/
theorem boundary_temperatures_favorable (cond : String) (a : Rat)
    (hc : cond ∉ badWeatherConditions) (ha : a ≤ 2) :
    (determineVerdict (mkWeather cond 0) (mkAqi a)).verdict = "Yes" ∧
    (determineVerdict (mkWeather cond 35) (mkAqi a)).verdict = "Yes" :=
  ⟨(verdict_yes_general (mkWeather cond 0) (mkAqi a) hc (aqiRuleFires_of_le a ha)
      (by norm_num [mkWeather]) (by norm_num [mkWeather])).1,
   (verdict_yes_general (mkWeather cond 35) (mkAqi a) hc (aqiRuleFires_of_le a ha)
      (by norm_num [mkWeather]) (by norm_num [mkWeather])).1⟩

/-- C4 witness: condition Clear with AQI 1 at temperatures 0 and 35. -/
theorem boundary_temperatures_favorable_witness :
    (determineVerdict (mkWeather "Clear" 0) (mkAqi 1)).verdict = "Yes" ∧
    (determineVerdict (mkWeather "Clear" 35) (mkAqi 1)).verdict = "Yes" :=
  boundary_temperatures_favorable "Clear" 1 (by decide) (by norm_num)

/-- C5: AQI index exactly 2 does not fire the air-quality rule, and each index
3, 4 or 5 yields verdict "No" with the air-quality message naming that
category, when the condition is neutral and the temperature is in range. -/
theorem aqi_thresholds (wd : WeatherData) (a : Rat)
    (hc : conditionOf wd ∉ badWeatherConditions)
    (ht0 : 0 ≤ wd.main.temp) (ht35 : wd.main.temp ≤ 35) :
    (determineVerdict wd (mkAqi 2)).verdict = "Yes" ∧
    ((a = 3 ∨ a = 4 ∨ a = 5) →
      (determineVerdict wd (mkAqi a)).verdict = "No" ∧
      (determineVerdict wd (mkAqi a)).message = badAirMessage (getAqiString a) ∧
      (determineVerdict wd (mkAqi a)).aqi = getAqiString a) := by
  constructor
  · exact (verdict_yes_general wd (mkAqi 2) hc (aqiRuleFires_of_le 2 (le_refl 2))
      (not_lt.mpr ht0) (not_lt.mpr ht35)).1
  · intro h
    have hfires : aqiRuleFires (aqiIndexOf (mkAqi a)) = true := by
      rcases h with h | h | h <;> subst h <;> decide
    obtain ⟨hv, hm⟩ := determineVerdict_eval wd (mkAqi a)
    refine ⟨?_, ?_, ?_⟩
    · rw [hv, if_pos (Or.inr (Or.inl hfires))]
    · rw [hm]
      unfold specLastRuleMessage
      rw [if_neg (not_lt.mpr ht0), if_neg (not_lt.mpr ht35), if_pos hfires]
      rcases h with h | h | h <;> subst h <;> rfl
    · rw [determineVerdict_aqi_field]
      rcases h with h | h | h <;> subst h <;> rfl

/-- C5 witness: condition Clear, temperature 20, with AQI 2 the verdict is
"Yes" and with AQI 4 it is "No" with the poor-air message. -/
theorem aqi_thresholds_witness :
    (determineVerdict (mkWeather "Clear" 20) (mkAqi 2)).verdict = "Yes" ∧
    ((determineVerdict (mkWeather "Clear" 20) (mkAqi 4)).verdict = "No" ∧
     (determineVerdict (mkWeather "Clear" 20) (mkAqi 4)).message =
       badAirMessage (getAqiString 4) ∧
     (determineVerdict (mkWeather "Clear" 20) (mkAqi 4)).aqi = getAqiString 4) :=
  ⟨(aqi_thresholds (mkWeather "Clear" 20) 4 (by decide)
      (by norm_num [mkWeather]) (by norm_num [mkWeather])).1,
   (aqi_thresholds (mkWeather "Clear" 20) 4 (by decide)
      (by norm_num [mkWeather]) (by norm_num [mkWeather])).2 (Or.inr (Or.inl rfl))⟩

/-- C6: every adverse weather condition yields verdict "No" with the message
naming that condition, when the AQI index is at most 2 and the temperature is
between 0 and 35. -/
theorem adverse_weather_verdict (wd : WeatherData) (ad : AqiData) (a : Rat)
    (hc : conditionOf wd ∈ badWeatherConditions)
    (ha : aqiIndexOf ad = some a) (ha2 : a ≤ 2)
    (ht0 : 0 ≤ wd.main.temp) (ht35 : wd.main.temp ≤ 35) :
    (determineVerdict wd ad).verdict = "No" ∧
    (determineVerdict wd ad).message = badWeatherMessage (conditionOf wd) := by
  obtain ⟨hv, hm⟩ := determineVerdict_eval wd ad
  have hfires : aqiRuleFires (aqiIndexOf ad) = false := by
    rw [ha]; exact aqiRuleFires_of_le a ha2
  refine ⟨?_, ?_⟩
  · rw [hv, if_pos (Or.inl hc)]
  · rw [hm]
    unfold specLastRuleMessage
    rw [if_neg (not_lt.mpr ht0), if_neg (not_lt.mpr ht35), if_neg (by simp [hfires]),
        if_pos ((contains_iff_mem _ _).mpr hc)]

/-- C6 witness: condition Rain, AQI 1, temperature 20 gives verdict "No" with
the rain message. -/
theorem adverse_weather_verdict_witness :
    (determineVerdict (mkWeather "Rain" 20) (mkAqi 1)).verdict = "No" ∧
    (determineVerdict (mkWeather "Rain" 20) (mkAqi 1)).message =
      badWeatherMessage (conditionOf (mkWeather "Rain" 20)) :=
  adverse_weather_verdict (mkWeather "Rain" 20) (mkAqi 1) 1 (by decide) rfl
    (by norm_num) (by norm_num [mkWeather]) (by norm_num [mkWeather])

/-- C7: a condition outside the adverse set (the label of an empty weather
array included, which defaults to Unknown) never fires the weather rule: with
the AQI index at most 2 and the temperature in range the verdict is "Yes" with
the default message. -/
theorem neutral_condition_verdict (wd : WeatherData) (ad : AqiData)
    (hc : conditionOf wd ∉ badWeatherConditions)
    (ha : ∀ a : Rat, aqiIndexOf ad = some a → a ≤ 2)
    (ht0 : 0 ≤ wd.main.temp) (ht35 : wd.main.temp ≤ 35) :
    (determineVerdict wd ad).verdict = "Yes" ∧
    (determineVerdict wd ad).message = defaultMessage := by
  have hfires : aqiRuleFires (aqiIndexOf ad) = false := by
    rcases hx : aqiIndexOf ad with _ | v
    · rfl
    · exact aqiRuleFires_of_le v (ha v hx)
  exact verdict_yes_general wd ad hc hfires (not_lt.mpr ht0) (not_lt.mpr ht35)

/-- C7 witness: the default case of the spec, condition Clear, AQI 1,
temperature 20, gives verdict "Yes" with the default message. -/
theorem neutral_condition_verdict_witness :
    (determineVerdict (mkWeather "Clear" 20) (mkAqi 1)).verdict = "Yes" ∧
    (determineVerdict (mkWeather "Clear" 20) (mkAqi 1)).message = defaultMessage :=
  neutral_condition_verdict (mkWeather "Clear" 20) (mkAqi 1) (by decide)
    (by intro a h
        rw [show aqiIndexOf (mkAqi 1) = some 1 from rfl] at h
        cases h
        norm_num)
    (by norm_num [mkWeather]) (by norm_num [mkWeather])

/-- C8: determineVerdict is a pure total function: two calls on equal inputs
return equal records in every field, the message text included. -/
theorem determineVerdict_deterministic (wd wd2 : WeatherData) (ad ad2 : AqiData)
    (hw : wd = wd2) (ha : ad = ad2) :
    determineVerdict wd ad = determineVerdict wd2 ad2 ∧
    (determineVerdict wd ad).message = (determineVerdict wd2 ad2).message := by
  subst hw
  subst ha
  exact ⟨rfl, rfl⟩

/-- C8 witness: determinism at a concrete input. -/
theorem determineVerdict_deterministic_witness :
    determineVerdict (mkWeather "Clear" 20) (mkAqi 1) =
      determineVerdict (mkWeather "Clear" 20) (mkAqi 1) ∧
    (determineVerdict (mkWeather "Clear" 20) (mkAqi 1)).message =
      (determineVerdict (mkWeather "Clear" 20) (mkAqi 1)).message :=
  determineVerdict_deterministic (mkWeather "Clear" 20) (mkWeather "Clear" 20)
    (mkAqi 1) (mkAqi 1) rfl rfl

/-- A weather record whose weather array is empty, for the C9 witness. -/
def emptyWeather : WeatherData :=
  { coord := { lon := 0, lat := 0 }
    weather := []
    main := { temp := 20 }
    name := "Nowhere"
    sys := { country := "US" } }

/-- An air-quality record whose list is empty, for the C9 witness. -/
def emptyAqi : AqiData := { list := [] }

/-- C9: determineVerdict is total on empty arrays: an empty weather array
gives the non-adverse condition "Unknown", and an empty AQI list gives the aqi
field "Unknown", an air-quality rule that cannot fire, and a verdict that
depends only on the weather condition and the temperature. -/
theorem empty_inputs_behavior (wd : WeatherData) (ad : AqiData) :
    (wd.weather = [] →
      conditionOf wd = "Unknown" ∧ conditionOf wd ∉ badWeatherConditions) ∧
    (ad.list = [] →
      (determineVerdict wd ad).aqi = "Unknown" ∧
      aqiRuleFires (aqiIndexOf ad) = false ∧
      ((determineVerdict wd ad).verdict = "No" ↔
        (conditionOf wd ∈ badWeatherConditions ∨
          wd.main.temp < 0 ∨ wd.main.temp > 35))) := by
  constructor
  · intro h
    have hu : conditionOf wd = "Unknown" := by simp [conditionOf, h]
    exact ⟨hu, by rw [hu]; decide⟩
  · intro h
    have hidx : aqiIndexOf ad = none := by simp [aqiIndexOf, h]
    have hfires : aqiRuleFires (aqiIndexOf ad) = false := by rw [hidx]; rfl
    refine ⟨?_, hfires, ?_⟩
    · rw [determineVerdict_aqi_field, hidx]; rfl
    · obtain ⟨hv, -⟩ := determineVerdict_eval wd ad
      rw [hv]
      by_cases hP : conditionOf wd ∈ badWeatherConditions ∨
          wd.main.temp < 0 ∨ wd.main.temp > 35
      · rw [if_pos (by tauto)]
        exact iff_of_true rfl hP
      · rw [if_neg ?_]
        · exact iff_of_false (by decide) hP
        · rintro (h1 | h2 | h3 | h4)
          · exact hP (Or.inl h1)
          · rw [hfires] at h2; exact absurd h2 (by decide)
          · exact hP (Or.inr (Or.inl h3))
          · exact hP (Or.inr (Or.inr h4))

/-- C9 witness: concrete records with empty arrays. -/
theorem empty_inputs_behavior_witness :
    (conditionOf emptyWeather = "Unknown" ∧
      conditionOf emptyWeather ∉ badWeatherConditions) ∧
    ((determineVerdict emptyWeather emptyAqi).aqi = "Unknown" ∧
      aqiRuleFires (aqiIndexOf emptyAqi) = false ∧
      ((determineVerdict emptyWeather emptyAqi).verdict = "No" ↔
        (conditionOf emptyWeather ∈ badWeatherConditions ∨
          emptyWeather.main.temp < 0 ∨ emptyWeather.main.temp > 35))) :=
  ⟨(empty_inputs_behavior emptyWeather emptyAqi).1 rfl,
   (empty_inputs_behavior emptyWeather emptyAqi).2 rfl⟩

/-- One ASCII letter, upper or lower case. -/
def isAsciiLetter (c : Char) : Bool :=
  (65 ≤ c.toNat && c.toNat ≤ 90) || (97 ≤ c.toNat && c.toNat ≤ 122)

/-- The input class of the first half of the flag claim: a string of exactly
two ASCII letters in either case. -/
def isTwoAsciiLetters (s : String) : Bool :=
  s.length == 2 && s.toList.all isAsciiLetter

/-- Uppercasing of a single ASCII character (the identity off the lowercase
letters). -/
def asciiUpperChar (c : Char) : Char :=
  if 97 ≤ c.toNat ∧ c.toNat ≤ 122 then Char.ofNat (c.toNat - 32) else c

lemma char_toNat_ofNat (n : Nat) (h : n < 55296) : (Char.ofNat n).toNat = n := by
  unfold Char.ofNat
  rw [dif_pos (Or.inl h)]
  rfl

lemma jsToUpperChar_ascii (c : Char) (h : c.toNat < 128) :
    jsToUpperChar c = [asciiUpperChar c] := by
  unfold jsToUpperChar asciiUpperChar
  by_cases h1 : 97 ≤ c.toNat ∧ c.toNat ≤ 122
  · rw [if_pos h1, if_pos h1]
  · rw [if_neg h1, if_neg h1, if_neg (by omega), if_neg (by omega), if_neg (by omega)]

lemma isAsciiUpper_asciiUpperChar (c : Char) (h : c.toNat < 128) :
    isAsciiUpper (asciiUpperChar c) = true ↔ isAsciiLetter c = true := by
  unfold isAsciiUpper asciiUpperChar isAsciiLetter
  by_cases h1 : 97 ≤ c.toNat ∧ c.toNat ≤ 122
  · rw [if_pos h1, char_toNat_ofNat _ (by omega)]
    simp only [Bool.and_eq_true, Bool.or_eq_true, decide_eq_true_eq]
    omega
  · rw [if_neg h1]
    simp only [Bool.and_eq_true, Bool.or_eq_true, decide_eq_true_eq]
    omega

lemma isAsciiLetter_lt (c : Char) (h : isAsciiLetter c = true) : c.toNat < 128 := by
  unfold isAsciiLetter at h
  simp only [Bool.or_eq_true, Bool.and_eq_true, decide_eq_true_eq] at h
  omega

lemma jsToUpper_pair (c1 c2 : Char) (h1 : c1.toNat < 128) (h2 : c2.toNat < 128) :
    jsToUpper [c1, c2] = [asciiUpperChar c1, asciiUpperChar c2] := by
  unfold jsToUpper
  rw [List.flatMap_cons, List.flatMap_cons, List.flatMap_nil,
      jsToUpperChar_ascii c1 h1, jsToUpperChar_ascii c2 h2]
  rfl

/-- C10, amended.  First half (as claimed): an input of exactly two ASCII
letters yields the string of the two regional indicators obtained by adding
the offset 127397 to each uppercased letter code.  Second half (restricted by
the counterexample below): every OTHER input consisting of ASCII characters
yields the white flag; a non-ASCII input may instead yield a regional
indicator pair when its JavaScript uppercase form is two ASCII capitals. -/
theorem getCountryFlag_amended (s : String) :
    (isTwoAsciiLetters s = true →
      getCountryFlag s =
        String.mk (s.toList.map
          (fun c => Char.ofNat ((asciiUpperChar c).toNat + regionalIndicatorOffset)))) ∧
    (isTwoAsciiLetters s = false → (∀ c ∈ s.toList, c.toNat < 128) →
      getCountryFlag s = "🏳️") := by
  have hlen : s.length = s.toList.length := rfl
  constructor
  · intro h
    simp only [isTwoAsciiLetters, Bool.and_eq_true, beq_iff_eq, List.all_eq_true] at h
    obtain ⟨h2, hall⟩ := h
    have h2' : s.toList.length = 2 := by rw [← hlen]; exact h2
    obtain ⟨c1, c2, hl⟩ := List.length_eq_two.mp h2'
    have hc1 : isAsciiLetter c1 = true := hall c1 (by rw [hl]; simp)
    have hc2 : isAsciiLetter c2 = true := hall c2 (by rw [hl]; simp)
    unfold getCountryFlag
    rw [if_neg (not_not_intro h2)]
    simp only [hl, jsToUpper_pair c1 c2 (isAsciiLetter_lt c1 hc1) (isAsciiLetter_lt c2 hc2)]
    rw [if_pos ⟨rfl, by
      simp only [List.all_cons, List.all_nil, Bool.and_eq_true, Bool.and_true]
      exact ⟨(isAsciiUpper_asciiUpperChar c1 (isAsciiLetter_lt c1 hc1)).mpr hc1,
             (isAsciiUpper_asciiUpperChar c2 (isAsciiLetter_lt c2 hc2)).mpr hc2⟩⟩]
    simp
  · intro h hascii
    unfold getCountryFlag
    by_cases hL : s.length = 2
    · rw [if_neg (not_not_intro hL)]
      have h2' : s.toList.length = 2 := by rw [← hlen]; exact hL
      obtain ⟨c1, c2, hl⟩ := List.length_eq_two.mp h2'
      have ha1 : c1.toNat < 128 := hascii c1 (by rw [hl]; simp)
      have ha2 : c2.toNat < 128 := hascii c2 (by rw [hl]; simp)
      have hnot : ¬(isAsciiLetter c1 = true ∧ isAsciiLetter c2 = true) := by
        rintro ⟨k1, k2⟩
        simp only [isTwoAsciiLetters, hl, hL, Bool.and_eq_false_iff, beq_iff_eq,
          List.all_cons, List.all_nil, Bool.and_true, k1, k2] at h
        simp at h
      simp only [hl, jsToUpper_pair c1 c2 ha1 ha2]
      have hno : ¬([asciiUpperChar c1, asciiUpperChar c2].length = 2 ∧
          [asciiUpperChar c1, asciiUpperChar c2].all isAsciiUpper = true) := by
        rintro ⟨-, hall2⟩
        simp only [List.all_cons, List.all_nil, Bool.and_eq_true, Bool.and_true] at hall2
        exact hnot ⟨(isAsciiUpper_asciiUpperChar c1 ha1).mp hall2.1,
                    (isAsciiUpper_asciiUpperChar c2 ha2).mp hall2.2⟩
      rw [if_neg hno]
    · rw [if_pos hL]

set_option maxRecDepth 4096 in
/-- C10 counterexample: the two-character string of U+017F LATIN SMALL LETTER
LONG S is not made of ASCII letters, yet getCountryFlag returns the regional
indicator pair for SS rather than the white flag, because the JavaScript
toUpperCase maps U+017F to the ASCII letter S before the regex test. -/
theorem getCountryFlag_longS_counterexample :
    isTwoAsciiLetters "ſſ" = false ∧
    getCountryFlag "ſſ" = "🇸🇸" ∧
    getCountryFlag "ſſ" ≠ "🏳️" := by decide

/-- C10 witness: a lowercase ASCII input yields its flag pair; a length-2
ASCII input with a digit yields the white flag. -/
theorem getCountryFlag_amended_witness :
    getCountryFlag "us" =
      String.mk ("us".toList.map
        (fun c => Char.ofNat ((asciiUpperChar c).toNat + regionalIndicatorOffset))) ∧
    getCountryFlag "u1" = "🏳️" :=
  ⟨(getCountryFlag_amended "us").1 (by decide),
   (getCountryFlag_amended "u1").2 (by decide) (by decide)⟩

end TouchGrass
